import Mathlib

/-!
A shallow embedding of the environment-manager and remote-invocation code of
the runhouse repository (`runhouse/resources/envs/env.py`,
`runhouse/resources/envs/utils.py`, `runhouse/rns/send.py`), together with
theorems settling the specification claims about it.

Modelling conventions:
* Python objects become Lean structures; in-place mutation of an object's
  attributes becomes functional record update, and a method that could mutate
  `self` returns the final state of `self` explicitly.
* Python truthiness is modelled explicitly (`None`, `""`, `[]`, `{}` are
  falsy); `x or y` on such values becomes the corresponding conditional.
* `hash(str(config))` is modelled as the canonical popped config value itself,
  i.e. the hash is treated as injective on canonical serializations (the
  64-bit collisions of Python's `hash` are abstracted away).
* Side effects (package installs, setup commands, RPC calls, log lines) are
  reified as values in effect lists so that theorems can state which side
  effects an operation performs.
-/

namespace Runhouse

/-- A package descriptor.  `Package` itself lives outside the sources at hand
(`runhouse/resources/packages`); the fields below model, from the spec, what
`env.py` and `send.py` use of it: an identifying install target string,
whether the install target is a `Folder` (a local directory), the system the
package currently lives on (rebased by `Package.to`), and whether its
installer `_install` raises when run. -/
structure Package where
  target : String
  isFolderTarget : Bool
  system : String
  installFails : Bool
deriving DecidableEq, Repr

/-- Modelled from the spec: `Package.from_string` (missing from the sources at
hand) builds a descriptor from a string shorthand; its install target is a
`Folder` exactly when the shorthand denotes a local directory
(`local:`/`reqs:` shorthands or a relative path). -/
def Package.from_string (s : String) : Package :=
  { target := s
    isFolderTarget :=
      s.startsWith "local:" || s.startsWith "reqs:" || s.startsWith "./"
    system := "local"
    installFails := false }

/-- Modelled from the spec: `Package.to` (missing from the sources at hand)
returns a copy of the package rebased onto the given system (copy-on-migrate);
`path`/`mount` only choose the upload destination and are not otherwise
observable here. -/
def Package.toSystem (p : Package) (system : String) (path : Option String)
    (mount : Bool) : Package :=
  let _ := path
  let _ := mount
  { p with system := system }

/-- One entry of an `Env`'s requirement list: in the source a requirement is
either a plain string or a `Package` object. -/
inductive Req
  | str (s : String)
  | pkg (p : Package)
deriving DecidableEq, Repr

/-- Model of how `Env._install_reqs` resolves a string requirement with
`Package.from_string` and keeps `Package` requirements as they are. -/
def Req.resolvePackage : Req → Package
  | .str s => Package.from_string s
  | .pkg p => p

/-- Modelled from the spec: a secret resource reference carrying its name and
the system it currently lives on (`Secret` is missing from the sources at
hand; `Secret.to` migrates it to a system). -/
structure Secret where
  sname : String
  system : String
deriving DecidableEq, Repr

/-- The `Env` object of `runhouse/resources/envs/env.py`. `_reqs` is the
declared requirement list, `working_dir` the optional working-directory
requirement, `compute` the optional compute-request dict (string keys to
integer values, in insertion order). -/
structure Env where
  name : Option String
  _reqs : List Req
  setup_cmds : List String
  env_vars : List (String × String)
  working_dir : Option Req
  secrets : List Secret
  compute : Option (List (String × Int))
deriving DecidableEq, Repr

/-- Python truthiness of an optional string (`None` and `""` are falsy). -/
def strTruthy : Option String → Bool
  | none => false
  | some s => !s.isEmpty

/-- Python truthiness of an optional requirement: `None` and the empty string
are falsy, every `Package` object is truthy. -/
def reqTruthy : Option Req → Bool
  | none => false
  | some (.str s) => !s.isEmpty
  | some (.pkg _) => true

/-- Model of `Env.env_name` (env.py line 53): `self.name or "base"`. -/
def Env.env_name (e : Env) : String :=
  match e.name with
  | none => "base"
  | some s => if s.isEmpty then "base" else s

/-- The `Env.reqs` property (env.py line 105):
`(self._reqs or []) + ([self.working_dir] if self.working_dir else [])`. -/
def Env.reqs (e : Env) : List Req :=
  e._reqs ++ (if reqTruthy e.working_dir then
    (match e.working_dir with | some r => [r] | none => []) else [])

/-- A value stored in a serialized config dict.  The constructors cover
exactly the value shapes `Env.config` produces: null, strings, string lists
(`setup_cmds`), string-to-string dicts (`env_vars`), string-to-int dicts
(`compute`), a requirement (`working_dir`), and a requirement list
(`reqs`). -/
inductive ConfigVal
  | null
  | s (v : String)
  | strList (vs : List String)
  | strPairs (kvs : List (String × String))
  | intPairs (kvs : List (String × Int))
  | req (r : Req)
  | reqList (rs : List Req)
deriving DecidableEq, Repr

/-- A serialized config: a Python dict as an insertion-ordered key/value
list (Python's `str(dict)` serializes keys in insertion order). -/
abbrev Config := List (String × ConfigVal)

/-- Python truthiness of a config value (empty containers and `""` falsy). -/
def ConfigVal.truthy : ConfigVal → Bool
  | .null => false
  | .s v => !v.isEmpty
  | .strList vs => !vs.isEmpty
  | .strPairs kvs => !kvs.isEmpty
  | .intPairs kvs => !kvs.isEmpty
  | .req _ => true
  | .reqList rs => !rs.isEmpty

/-- Modelled from the spec: `Resource.config` (the base-class part of the
serialized configuration, missing from the sources at hand) records the
resource's name, resource type and resource subtype. -/
def Env.base_config (e : Env) : Config :=
  [("name", match e.name with | none => ConfigVal.null | some s => ConfigVal.s s),
   ("resource_type", ConfigVal.s "env"),
   ("resource_subtype", ConfigVal.s "Env")]

/-- Modelled from the spec: `Resource.save_attrs_to_config` (missing from the
sources at hand) stores each listed attribute's value in the config under the
attribute's name when the value is truthy.  Here the attribute list of
env.py line 88 — `["setup_cmds", "env_vars", "env_name", "compute"]` — is
unrolled. -/
def Env.save_attrs (e : Env) : Config :=
  (if (ConfigVal.strList e.setup_cmds).truthy then
    [("setup_cmds", ConfigVal.strList e.setup_cmds)] else []) ++
  (if (ConfigVal.strPairs e.env_vars).truthy then
    [("env_vars", ConfigVal.strPairs e.env_vars)] else []) ++
  (if (ConfigVal.s e.env_name).truthy then
    [("env_name", ConfigVal.s e.env_name)] else []) ++
  (match e.compute with
   | none => []
   | some kvs =>
     if (ConfigVal.intPairs kvs).truthy then [("compute", ConfigVal.intPairs kvs)] else [])

/-- Model of `Env.config` (env.py lines 85-101): the base config, then
`save_attrs_to_config` for `setup_cmds`, `env_vars`, `env_name`, `compute`,
then `config.update` with the `reqs` list (the declared `_reqs`, not the
property) and `working_dir`. -/
def Env.config (e : Env) : Config :=
  e.base_config ++ e.save_attrs ++
  [("reqs", ConfigVal.reqList e._reqs),
   ("working_dir", match e.working_dir with
     | none => ConfigVal.null
     | some r => ConfigVal.req r)]

/-- The install hash of env.py lines 172-175: serialize the config, pop the
`"name"` key, and hash the result.  The hash of the serialized dict is
modelled as the popped config itself (injective hash). -/
def Env.install_hash (e : Env) : Config :=
  e.config.filter (fun kv => kv.1 ≠ "name")

/-- A side effect performed while installing an environment locally:
installing one package, or running one setup command. -/
inductive Effect
  | installPkg (p : Package)
  | setupCmd (c : String)
deriving DecidableEq, Repr

/-- The node-process-wide `obj_store.installed_envs` dict: install hash to
environment name. -/
structure ObjStore where
  installed_envs : List (Config × Option String)
deriving DecidableEq, Repr

/-- Dict lookup in `installed_envs`. -/
def ObjStore.lookup (st : ObjStore) (h : Config) : Option (Option String) :=
  (st.installed_envs.find? (fun kv => kv.1 = h)).map (·.2)

/-- Dict assignment `obj_store.installed_envs[h] = n`: overwrite the entry if
the key is present, otherwise append it. -/
def ObjStore.record (st : ObjStore) (h : Config) (n : Option String) : ObjStore :=
  if st.installed_envs.any (fun kv => kv.1 = h) then
    { installed_envs :=
        st.installed_envs.map (fun kv => if kv.1 = h then (h, n) else kv) }
  else
    { installed_envs := st.installed_envs ++ [(h, n)] }

/-- Model of `Env._install_reqs` in the local case (env.py lines 141-155, with
`cluster=None` as `install` calls it): resolve each requirement of the `reqs`
property in order and run its installer; a raising installer aborts the rest.
Returns the successful install effects and the error of the first failing
installer, if any. -/
def installReqsGo : List Req → List Effect × Option String
  | [] => ([], none)
  | r :: rest =>
    let p := r.resolvePackage
    if p.installFails then
      ([], some ("Package install failed: " ++ p.target))
    else
      let (effs, err) := installReqsGo rest
      (Effect.installPkg p :: effs, err)

/-- Model of `Env._install_reqs(cluster=None)` applied to `self.reqs`. -/
def Env.install_reqs_local (e : Env) : List Effect × Option String :=
  installReqsGo e.reqs

/-- Model of `Env._run_setup_cmds` in the local case (env.py lines 157-167): for a
plain `Env` the `_run_cmd` prefix is `""` (falsy), so each setup command runs
unchanged, in order. -/
def Env.setup_effects (e : Env) : List Effect :=
  e.setup_cmds.map Effect.setupCmd

/-- Model of `Env.install` (env.py lines 169-183): hash the config with `"name"`
popped; if the hash is in `installed_envs` and `force` is false, return with
no side effects; otherwise record the hash (before any install runs), then
install the requirements and, if none of them failed, run the setup
commands.  Returns the updated store, the performed side effects, and the
error of a failing installer, if any. -/
def Env.install (e : Env) (force : Bool) (st : ObjStore) :
    ObjStore × List Effect × Option String :=
  let h := e.install_hash
  if (st.lookup h).isSome && !force then
    (st, [], none)
  else
    let st' := st.record h e.name
    let pr := e.install_reqs_local
    match pr.2 with
    | some m => (st', pr.1, some m)
    | none => (st', pr.1 ++ e.setup_effects, none)

/-- The cluster handle as `Env.to` uses it: a name, the list of node IPs, and
the name of the cluster's distinguished default environment. -/
structure Cluster where
  cname : String
  ips : List String
  default_env_name : String
deriving DecidableEq, Repr

/-- The target of `Env.to` after `_get_cluster_from`: either a `Cluster`
object or a file-system string (e.g. `"s3"`). -/
inductive System
  | cluster (c : Cluster)
  | fileSystem (s : String)
deriving DecidableEq, Repr

/-- The system name a `Package`/`Secret` is rebased onto by `.to`. -/
def System.sysName : System → String
  | .cluster c => c.cname
  | .fileSystem s => s

/-- One requirement-processing step of `Env._reqs_to` (env.py lines 114-126):
a string requirement is parsed with `Package.from_string` and replaced by the
parsed package only when its install target is a `Folder`; any package with a
`Folder` install target is sent to the system with `Package.to`. -/
def processReq (req : Req) (system : System) (path : Option String)
    (mount : Bool) : Req :=
  match req with
  | .str s =>
    let new_req := Package.from_string s
    if new_req.isFolderTarget then
      .pkg (new_req.toSystem system.sysName path mount)
    else .str s
  | .pkg p =>
    if p.isFolderTarget then .pkg (p.toSystem system.sysName path mount)
    else .pkg p

/-- Model of `Env._reqs_to` (env.py lines 111-129): process every entry of the `reqs`
property; when `working_dir` is truthy return the processed list without its
last element together with that last element (the processed working dir),
otherwise the whole list and `None`. -/
def Env.reqs_to (e : Env) (system : System) (path : Option String)
    (mount : Bool) : List Req × Option Req :=
  let new_reqs := e.reqs.map (fun r => processReq r system path mount)
  if reqTruthy e.working_dir then (new_reqs.dropLast, new_reqs.getLast?)
  else (new_reqs, none)

/-- Modelled from the spec: `Secret.to` (missing from the sources at hand)
migrates a secret to the system, bound to the environment; `Env._secrets_to`
(env.py lines 131-139) maps it over the secret list. -/
def Env.secrets_to (e : Env) (system : System) : List Secret :=
  e.secrets.map (fun s => { s with system := system.sysName })

/-- An RPC/registry call that `Env.to` performs against the target cluster. -/
inductive SysCall
  | putResource (envName : Option String)
  | callMethod (key : String) (method : String)
  | secretTo (secretName : String)
deriving DecidableEq, Repr

/-- The outcome of `Env.to`: the final state of `self` (the receiver), the
returned environment or the raised error, and the calls made against the
target system. -/
structure ToResult where
  selfAfter : Env
  result : Except String Env
  calls : List SysCall

/-- Dict assignment `d[k] = v` on a string-to-int dict. -/
def setIntKey (d : List (String × Int)) (k : String) (v : Int) :
    List (String × Int) :=
  if d.any (fun kv => kv.1 = k) then
    d.map (fun kv => if kv.1 = k then (k, v) else kv)
  else d ++ [(k, v)]

/-- Dict lookup on a string-to-int dict. -/
def getIntKey (d : List (String × Int)) (k : String) : Option Int :=
  (d.find? (fun kv => kv.1 = k)).map (·.2)

/-- The out-of-bounds error of env.py lines 216-218. -/
def nodeIdxError (c : Cluster) (node_idx : Int) : String :=
  let cn := c.cname
  let n := c.ips.length
  s!"Cluster {cn} has only {n} nodes. Requested node index {node_idx} is out of bounds."

/-- Model of `Env.to` (env.py lines 192-244).  `self` is deep-copied into `new_env`;
every following assignment targets `new_env`, so the returned `selfAfter` is
built by threading `self` through the translated statements (none of which
assigns to it).  On a cluster target: validate `node_idx` against the node
count and record it in the copy's `compute` dict, register the copy (or use
the default env's key when the copy's name is falsy), propagate truthy env
vars, trigger the remote install, and finally migrate the secrets. -/
def Env.to (self : Env) (system : System) (node_idx : Option Int)
    (path : Option String) (mount : Bool) (force_install : Bool) : ToResult :=
  let new_env0 := self
  let pr := self.reqs_to system path mount
  let new_env := { new_env0 with _reqs := pr.1, working_dir := pr.2 }
  match system with
  | .fileSystem _ => { selfAfter := self, result := .ok new_env, calls := [] }
  | .cluster c =>
    let checked : Except String Env :=
      match node_idx with
      | none => .ok new_env
      | some k =>
        if k ≥ (c.ips.length : Int) then .error (nodeIdxError c k)
        else
          let cmp := match new_env.compute with | none => [] | some d => d
          .ok { new_env with compute := some (setIntKey cmp "node_idx" k) }
    match checked with
    | .error m => { selfAfter := self, result := .error m, calls := [] }
    | .ok new_env =>
      let named := strTruthy new_env.name
      let key := if named then new_env.name.getD "" else c.default_env_name
      let putCalls := if named then [SysCall.putResource new_env.name] else []
      let envVarCalls :=
        if self.env_vars.isEmpty then []
        else [SysCall.callMethod key "_set_env_vars"]
      let installCalls :=
        if named then [SysCall.callMethod key "install"]
        else [SysCall.callMethod key "_install_reqs",
              SysCall.callMethod key "_run_setup_cmds"]
      let _ := force_install
      let new_env := { new_env with secrets := self.secrets_to (.cluster c) }
      { selfAfter := self
        result := .ok new_env
        calls := putCalls ++ envVarCalls ++ installCalls ++
          (self.secrets.map (fun s => SysCall.secretTo s.sname)) }

/-- A serialized value crossing the RPC boundary in `send.py`. -/
inductive RValue
  | null
  | s (v : String)
  | i (v : Int)
  | list (vs : List RValue)

/-- A remote exception as carried in the response envelope: an opaque pair of
type name and message, re-raised as-is on the caller. -/
structure RExn where
  ty : String
  msg : String
deriving DecidableEq, Repr

/-- The serialized call envelope of `Send._call_fn_with_ssh_access`
(send.py lines 267-268):
`[relative_path, module_name, fn_name, fn_type, args, kwargs]`. -/
structure Envelope where
  relative_path : Option String
  module_name : String
  fn_name : String
  fn_type : String
  args : List RValue
  kwargs : List (String × RValue)

/-- The deserialized response envelope `[res, fn_exception, fn_traceback]`
(send.py line 272). -/
structure RemoteResponse where
  res : RValue
  fn_exception : Option RExn
  fn_traceback : Option String

/-- A locally emitted log line (structured: we record what is logged, not the
formatted text). -/
inductive LogEvent
  | infoRunning (name : String)
  | errorExn (fn_type : String) (e : RExn)
  | errorTraceback (tb : Option String)
deriving DecidableEq, Repr

/-- The outcome of one `Send` operation: a capability error raised before any
transmission, a configuration error raised before any transmission, or a
transmitted envelope together with the local log lines and the final result
(the returned value, or the re-raised remote exception). -/
inductive CallResult
  | capabilityError (m : String)
  | configError (m : String)
  | transmitted (env : Envelope) (logs : List LogEvent) (outcome : Except RExn RValue)

/-- The envelope a `CallResult` transmitted to the target, if any. -/
def CallResult.envelopeSent : CallResult → Option Envelope
  | .capabilityError _ => none
  | .configError _ => none
  | .transmitted env _ _ => some env

/-- The `Send` object of `runhouse/rns/send.py`, restricted to the fields its
call methods consult: `name`, `fn_pointers` and the access-level string. -/
structure Send where
  name : Option String
  fn_pointers : Option (Option String × String × String)
  access : String
deriving DecidableEq, Repr

/-- Model of `self.access in [ResourceAccess.write, ResourceAccess.read]`
(`ResourceAccess` is a string enum, so this is string comparison). -/
def Send.hasSshAccess (s : Send) : Bool :=
  s.access = "write" || s.access = "read"

/-- Model of `self.name or 'anonymous send'` (send.py line 262). -/
def Send.displayName (s : Send) : String :=
  match s.name with
  | some n => if n.isEmpty then "anonymous send" else n
  | none => "anonymous send"

/-- Model of `Send._call_fn_with_ssh_access` (send.py lines 258-277), with the
transport's response supplied as a parameter: log the run, raise a
configuration error when `fn_pointers` is `None`; otherwise build and
transmit the envelope, deserialize the response as
`(res, fn_exception, fn_traceback)`, and on a non-null exception log the
exception and the traceback and re-raise that very exception; otherwise
return `res` unchanged. -/
def Send.call_fn_with_ssh_access (s : Send) (fn_type : String)
    (args : List RValue) (kwargs : List (String × RValue))
    (resp : RemoteResponse) : CallResult :=
  let nm := s.displayName
  match s.fn_pointers with
  | none => .configError ("No fn pointers saved for " ++ nm)
  | some (rp, mn, fn) =>
    let env : Envelope :=
      { relative_path := rp, module_name := mn, fn_name := fn
        fn_type := fn_type, args := args, kwargs := kwargs }
    match resp.fn_exception with
    | some ex =>
      .transmitted env
        [LogEvent.infoRunning nm, LogEvent.errorExn fn_type ex,
         LogEvent.errorTraceback resp.fn_traceback]
        (.error ex)
    | none =>
      .transmitted env [LogEvent.infoRunning nm] (.ok resp.res)

/-- Model of `Send.repeat` (send.py lines 195-206): under write/read access, dispatch
`fn_type="repeat"` with args `[num_repeats, args]`; otherwise raise
`NotImplementedError` naming the required access levels. -/
def Send.repeatCall (s : Send) (num_repeats : Int) (args : List RValue)
    (kwargs : List (String × RValue)) (resp : RemoteResponse) : CallResult :=
  if s.hasSshAccess then
    s.call_fn_with_ssh_access "repeat" [.i num_repeats, .list args] kwargs resp
  else
    .capabilityError "Send.repeat only works with Write or Read access, not Proxy access"

/-- Model of `Send.map` (send.py lines 208-213). -/
def Send.mapCall (s : Send) (arg_list : List RValue)
    (kwargs : List (String × RValue)) (resp : RemoteResponse) : CallResult :=
  if s.hasSshAccess then
    s.call_fn_with_ssh_access "map" arg_list kwargs resp
  else
    .capabilityError "Send.map only works with Write or Read access, not Proxy access"

/-- Model of `Send.starmap` (send.py lines 215-221). -/
def Send.starmapCall (s : Send) (args_lists : List RValue)
    (kwargs : List (String × RValue)) (resp : RemoteResponse) : CallResult :=
  if s.hasSshAccess then
    s.call_fn_with_ssh_access "starmap" args_lists kwargs resp
  else
    .capabilityError "Send.starmap only works with Write or Read access, not Proxy access"

/-- Model of `Send.enqueue` (send.py lines 223-233): dispatches `fn_type="queue"`. -/
def Send.enqueueCall (s : Send) (args : List RValue)
    (kwargs : List (String × RValue)) (resp : RemoteResponse) : CallResult :=
  if s.hasSshAccess then
    s.call_fn_with_ssh_access "queue" args kwargs resp
  else
    .capabilityError "Send.enqueue only works with Write or Read access, not Proxy access"

/-- Model of `Send.remote` (send.py lines 235-243): a local `ray.init` precedes the
access check (a local effect, not a transmission); the proxy-branch message
says `Send.map` in the source. -/
def Send.remoteCall (s : Send) (args : List RValue)
    (kwargs : List (String × RValue)) (resp : RemoteResponse) : CallResult :=
  if s.hasSshAccess then
    s.call_fn_with_ssh_access "remote" args kwargs resp
  else
    .capabilityError "Send.map only works with Write or Read access, not Proxy access"

/-- Model of `Send.get` (send.py lines 245-256): a non-list `obj_ref` is wrapped in a
singleton list before dispatch. -/
def Send.getCall (s : Send) (obj_ref : RValue) (resp : RemoteResponse) :
    CallResult :=
  if s.hasSshAccess then
    let arg_list := match obj_ref with | .list l => l | r => [r]
    s.call_fn_with_ssh_access "get" arg_list [] resp
  else
    .capabilityError "Send.get only works with Write or Read access, not Proxy access"

/-! ### Concrete fixtures used by witnesses and counterexamples -/

/-- An environment named `"a"` with one pip requirement. -/
def envA : Env :=
  { name := some "a", _reqs := [.str "numpy"], setup_cmds := [],
    env_vars := [], working_dir := none, secrets := [], compute := some [] }

/-- Identical to `envA` except for the name. -/
def envB : Env := { envA with name := some "b" }

/-- A package descriptor whose installer raises. -/
def failPkg : Package :=
  { target := "badpkg", isFolderTarget := false, system := "local",
    installFails := true }

/-- An environment whose second requirement's installer fails. -/
def envFail : Env :=
  { envA with
    name := some "f"
    _reqs := [.str "numpy", .pkg failPkg]
    setup_cmds := ["echo done"] }

/-- The `installed_envs` store of a freshly started node process. -/
def emptyStore : ObjStore := ⟨[]⟩

/-- A cluster with two nodes. -/
def twoNodeCluster : Cluster :=
  { cname := "rh-cpu", ips := ["10.0.0.1", "10.0.0.2"],
    default_env_name := "base_env" }

/-- A `Send` with proxy access. -/
def sendProxy : Send :=
  { name := some "my_send", fn_pointers := some (some "pkg", "mod", "fn"),
    access := "proxy" }

/-- A `Send` with write access. -/
def sendWrite : Send := { sendProxy with access := "write" }

/-- A response envelope carrying a remote `ValueError`. -/
def respExn : RemoteResponse :=
  { res := .null, fn_exception := some ⟨"ValueError", "bad input"⟩,
    fn_traceback := some "Traceback (most recent call last) ..." }

/-- A response envelope carrying a successful result. -/
def respOk : RemoteResponse :=
  { res := .i 42, fn_exception := none, fn_traceback := none }

/-! ### Helper lemmas -/

/-- Lemma: `find?` after an in-place overwrite of the entry with key `k` finds the
new entry, provided the key was present. -/
theorem find_after_overwrite {α β : Type} [DecidableEq α]
    (l : List (α × β)) (k : α) (v : β)
    (hmem : l.any (fun kv => kv.1 = k) = true) :
    (l.map (fun kv => if kv.1 = k then (k, v) else kv)).find?
      (fun kv => kv.1 = k) = some (k, v) := by
  induction l with
  | nil => simp at hmem
  | cons kv rest ih =>
    by_cases hk : kv.1 = k
    · simp only [List.map_cons, if_pos hk]
      rw [List.find?_cons_of_pos]
      simp
    · simp only [List.map_cons, if_neg hk]
      rw [List.find?_cons_of_neg]
      · apply ih
        simp only [List.any_cons, Bool.or_eq_true] at hmem
        rcases hmem with h1 | h2
        · exact absurd (of_decide_eq_true h1) hk
        · exact h2
      · simpa using hk

/-- Lemma: `find?` after appending a fresh entry with key `k` finds that entry,
provided the key was absent. -/
theorem find_after_append {α β : Type} [DecidableEq α]
    (l : List (α × β)) (k : α) (v : β)
    (hmem : l.any (fun kv => kv.1 = k) = false) :
    (l ++ [(k, v)]).find? (fun kv => kv.1 = k) = some (k, v) := by
  induction l with
  | nil =>
    rw [List.nil_append, List.find?_cons_of_pos _ (by simp)]
  | cons kv rest ih =>
    simp only [List.any_cons, Bool.or_eq_false_iff] at hmem
    rw [List.cons_append, List.find?_cons_of_neg]
    · exact ih hmem.2
    · simp only [decide_eq_true_eq]
      intro hk
      rw [hk] at hmem
      simp at hmem

/-- Dict assignment followed by lookup of the same key finds the new value. -/
theorem ObjStore.lookup_record (st : ObjStore) (h : Config) (n : Option String) :
    (st.record h n).lookup h = some n := by
  unfold ObjStore.record ObjStore.lookup
  cases hmem : st.installed_envs.any (fun kv => kv.1 = h) with
  | true =>
    rw [if_pos rfl]
    rw [find_after_overwrite st.installed_envs h n hmem]
    rfl
  | false =>
    rw [if_neg (by simp)]
    rw [find_after_append st.installed_envs h n hmem]
    rfl

/-- The installer loop's successful effects are exactly the installs of the
longest prefix of requirements whose installers do not fail. -/
theorem installReqsGo_effects (rs : List Req) :
    (installReqsGo rs).1 =
      (rs.takeWhile (fun r => !r.resolvePackage.installFails)).map
        (fun r => Effect.installPkg r.resolvePackage) := by
  induction rs with
  | nil => rfl
  | cons r rest ih =>
    unfold installReqsGo
    cases hf : r.resolvePackage.installFails with
    | true => simp [List.takeWhile_cons, hf]
    | false => simp [List.takeWhile_cons, hf, ih]

/-- The installer loop reports an error iff some requirement's installer
fails. -/
theorem installReqsGo_err (rs : List Req) :
    (installReqsGo rs).2.isSome
      = rs.any (fun r => r.resolvePackage.installFails) := by
  induction rs with
  | nil => rfl
  | cons r rest ih =>
    unfold installReqsGo
    cases hf : r.resolvePackage.installFails with
    | true => simp [hf]
    | false => simp [hf, ih]

/-- No setup command appears among the installer loop's effects. -/
theorem setup_not_in_install_effects (rs : List Req) (c : String) :
    Effect.setupCmd c ∉ (installReqsGo rs).1 := by
  rw [installReqsGo_effects]
  intro hmem
  rcases List.mem_map.mp hmem with ⟨r, _, hr⟩
  exact Effect.noConfusion hr

/-- Setting a key in a string-to-int dict then reading it back gives the set
value. -/
theorem getIntKey_setIntKey (d : List (String × Int)) (k : String) (v : Int) :
    getIntKey (setIntKey d k v) k = some v := by
  unfold setIntKey getIntKey
  cases hmem : d.any (fun kv => kv.1 = k) with
  | true =>
    rw [if_pos rfl]
    rw [find_after_overwrite d k v hmem]
    rfl
  | false =>
    rw [if_neg (by simp)]
    rw [find_after_append d k v hmem]
    rfl

/-- An `install` call that finds its hash cached and is not forced is a
no-op. -/
theorem install_cached_noop (e : Env) (st : ObjStore)
    (h : (st.lookup e.install_hash).isSome = true) :
    e.install false st = (st, [], none) := by
  unfold Env.install
  simp [h]

/-- An `install` call whose hash is not cached and whose installer loop
fails: the hash is recorded first, the effects are the loop's effects, and
the failure propagates without running any setup command. -/
theorem install_uncached_fail (e : Env) (st : ObjStore) (m : String)
    (hv : (st.lookup e.install_hash).isSome = false)
    (herr : (e.install_reqs_local).2 = some m) :
    e.install false st =
      (st.record e.install_hash e.name, (e.install_reqs_local).1, some m) := by
  unfold Env.install
  dsimp only
  rw [hv, if_neg (by simp), herr]

/-- An `install` call whose hash is not cached and whose installer loop
succeeds: the hash is recorded, then all installs and then all setup
commands run. -/
theorem install_uncached_ok (e : Env) (st : ObjStore)
    (hv : (st.lookup e.install_hash).isSome = false)
    (herr : (e.install_reqs_local).2 = none) :
    e.install false st =
      (st.record e.install_hash e.name,
       (e.install_reqs_local).1 ++ e.setup_effects, none) := by
  unfold Env.install
  dsimp only
  rw [hv, if_neg (by simp), herr]

/-- Lemma: `Env.to` onto a cluster with a node index below the node count: the call
succeeds and the returned environment's compute dict carries the index. -/
theorem to_cluster_in_bounds (e : Env) (c : Cluster) (k : Int)
    (p : Option String) (m f : Bool) (hk : ¬k ≥ (c.ips.length : Int)) :
    ∃ e' d, (e.to (.cluster c) (some k) p m f).result = .ok e' ∧
      e'.compute = some d ∧ getIntKey d "node_idx" = some k := by
  unfold Env.to
  dsimp only
  rw [if_neg hk]
  exact ⟨_, _, rfl, rfl, getIntKey_setIntKey _ _ _⟩

/-! ### Claim theorems -/

/-- C7: for every Environment the `reqs` property returns the declared
requirement list in order with `working_dir` appended last when `working_dir`
is set (truthy, matching the source's `if self.working_dir`), and exactly the
declared requirements when it is unset. -/
theorem reqs_appends_working_dir (e : Env) :
    (∀ wd, e.working_dir = some wd → reqTruthy e.working_dir = true →
      e.reqs = e._reqs ++ [wd]) ∧
    (reqTruthy e.working_dir = false → e.reqs = e._reqs) := by
  constructor
  · intro wd hwd htr
    have h2 : reqTruthy (some wd) = true := hwd ▸ htr
    simp [Env.reqs, hwd, h2]
  · intro hf
    simp [Env.reqs, hf]

/-- A working-directory package fixture. -/
def wdPkg : Package :=
  { target := "./", isFolderTarget := true, system := "local",
    installFails := false }

/-- Fixture: `envA` with a working directory. -/
def envWithWd : Env := { envA with working_dir := some (.pkg wdPkg) }

/-- Witness for C7 at concrete inputs: with a working dir it is appended
last, without one the declared list is returned unchanged. -/
theorem reqs_appends_working_dir_witness :
    envWithWd.reqs = envWithWd._reqs ++ [Req.pkg wdPkg] ∧
    envA.reqs = envA._reqs :=
  ⟨(reqs_appends_working_dir envWithWd).1 (Req.pkg wdPkg) rfl rfl,
   (reqs_appends_working_dir envA).2 rfl⟩

/-- An environment whose name is the empty string. -/
def envEmptyName : Env := { envA with name := some "" }

/-- C10 counterexample: an Environment constructed with `name=""` is not
`name=None`, yet `env_name` returns `"base"`, not that name — Python's
`self.name or "base"` treats the empty string like `None`. -/
theorem env_name_empty_counterexample :
    envEmptyName.name = some "" ∧ envEmptyName.env_name ≠ "" ∧
    ¬(∀ (e : Env) (s : String), e.name = some s → e.env_name = s) := by
  refine ⟨rfl, by decide, ?_⟩
  intro h
  have hx := h envEmptyName "" rfl
  exact absurd hx (by decide)

/-- C10 amended: `env_name` returns `"base"` when the name is `None` or the
empty string, returns the name whenever it is non-empty, and is never
`None` (it always is a `String`). -/
theorem env_name_amended (e : Env) :
    (e.name = none → e.env_name = "base") ∧
    (e.name = some "" → e.env_name = "base") ∧
    (∀ s, e.name = some s → s ≠ "" → e.env_name = s) := by
  refine ⟨?_, ?_, ?_⟩
  · intro h; simp [Env.env_name, h]
  · intro h; simp only [Env.env_name, h]; rw [if_pos (by decide)]
  · intro s h hs
    simp only [Env.env_name, h]
    rw [if_neg]
    simp [String.isEmpty_iff, hs]

/-- Witness for C10 amended at concrete inputs. -/
theorem env_name_amended_witness :
    envA.env_name = "a" ∧ envEmptyName.env_name = "base" :=
  ⟨(env_name_amended envA).2.2 "a" rfl (by decide),
   (env_name_amended envEmptyName).2.1 rfl⟩

/-- C3: `Env.to` never mutates the receiver: the final state of `self` after
the call is the environment it started as, whatever the target, node index,
path, mount or force flags — every assignment in the method body targets the
deep copy. -/
theorem to_does_not_mutate (e : Env) (sys : System) (k : Option Int)
    (p : Option String) (m f : Bool) :
    (e.to sys k p m f).selfAfter = e := by
  unfold Env.to
  cases sys with
  | fileSystem s => rfl
  | cluster c =>
    cases k with
    | none => rfl
    | some kk =>
      by_cases hk : kk ≥ (c.ips.length : Int)
      · dsimp only; rw [if_pos hk]
      · dsimp only; rw [if_neg hk]

/-- C8: `to(cluster, node_idx=k)` raises the out-of-bounds configuration
error when `k ≥` the cluster's node count, and for `0 ≤ k <` the node count
succeeds with `node_idx = k` recorded in the returned environment's compute
request. -/
theorem to_node_idx_bounds (e : Env) (c : Cluster) (k : Int)
    (p : Option String) (m f : Bool) :
    (k ≥ (c.ips.length : Int) →
      (e.to (.cluster c) (some k) p m f).result = .error (nodeIdxError c k)) ∧
    (0 ≤ k → k < (c.ips.length : Int) →
      ∃ e' d, (e.to (.cluster c) (some k) p m f).result = .ok e' ∧
        e'.compute = some d ∧ getIntKey d "node_idx" = some k) := by
  constructor
  · intro hge
    unfold Env.to
    dsimp only
    rw [if_pos hge]
  · intro _ hlt
    exact to_cluster_in_bounds e c k p m f (by omega)

/-- Witness for C8 at concrete inputs on a two-node cluster: index 2 errors,
index 1 succeeds and is recorded. -/
theorem to_node_idx_bounds_witness :
    ((envA.to (.cluster twoNodeCluster) (some 2) none false false).result =
      .error (nodeIdxError twoNodeCluster 2)) ∧
    (∃ e' d,
      (envA.to (.cluster twoNodeCluster) (some 1) none false false).result =
        .ok e' ∧ e'.compute = some d ∧ getIntKey d "node_idx" = some 1) :=
  ⟨(to_node_idx_bounds envA twoNodeCluster 2 none false false).1 (by decide),
   (to_node_idx_bounds envA twoNodeCluster 1 none false false).2 (by decide)
     (by decide)⟩

/-- C9: a negative `node_idx` is not caught by the bounds check (only the
upper bound is compared), so the call succeeds and the negative value is
recorded under `compute["node_idx"]` of the returned environment. -/
theorem to_negative_node_idx (e : Env) (c : Cluster) (k : Int)
    (p : Option String) (m f : Bool) (hk : k < 0) :
    ∃ e' d, (e.to (.cluster c) (some k) p m f).result = .ok e' ∧
      e'.compute = some d ∧ getIntKey d "node_idx" = some k :=
  to_cluster_in_bounds e c k p m f (by omega)

/-- Witness for C9 at `node_idx = -1` on a two-node cluster. -/
theorem to_negative_node_idx_witness :
    ∃ e' d,
      (envA.to (.cluster twoNodeCluster) (some (-1)) none false false).result =
        .ok e' ∧ e'.compute = some d ∧ getIntKey d "node_idx" = some (-1) :=
  to_negative_node_idx envA twoNodeCluster (-1) none false false (by decide)

/-- C4: under proxy access each of `repeat`, `map`, `starmap`, `enqueue`,
`remote` and `get` raises the `NotImplementedError` naming the required
access levels (Write or Read), and no call envelope is transmitted to the
target. -/
theorem proxy_ops_capability_error (s : Send) (h : s.access = "proxy")
    (n : Int) (args : List RValue) (kw : List (String × RValue))
    (r : RValue) (resp : RemoteResponse) :
    (s.repeatCall n args kw resp = .capabilityError
        "Send.repeat only works with Write or Read access, not Proxy access" ∧
      (s.repeatCall n args kw resp).envelopeSent = none) ∧
    (s.mapCall args kw resp = .capabilityError
        "Send.map only works with Write or Read access, not Proxy access" ∧
      (s.mapCall args kw resp).envelopeSent = none) ∧
    (s.starmapCall args kw resp = .capabilityError
        "Send.starmap only works with Write or Read access, not Proxy access" ∧
      (s.starmapCall args kw resp).envelopeSent = none) ∧
    (s.enqueueCall args kw resp = .capabilityError
        "Send.enqueue only works with Write or Read access, not Proxy access" ∧
      (s.enqueueCall args kw resp).envelopeSent = none) ∧
    (s.remoteCall args kw resp = .capabilityError
        "Send.map only works with Write or Read access, not Proxy access" ∧
      (s.remoteCall args kw resp).envelopeSent = none) ∧
    (s.getCall r resp = .capabilityError
        "Send.get only works with Write or Read access, not Proxy access" ∧
      (s.getCall r resp).envelopeSent = none) := by
  have hacc : s.hasSshAccess = false := by
    unfold Send.hasSshAccess
    rw [h]
    decide
  refine ⟨⟨?_, ?_⟩, ⟨?_, ?_⟩, ⟨?_, ?_⟩, ⟨?_, ?_⟩, ⟨?_, ?_⟩, ?_, ?_⟩ <;>
    simp [Send.repeatCall, Send.mapCall, Send.starmapCall, Send.enqueueCall,
      Send.remoteCall, Send.getCall, CallResult.envelopeSent, hacc]

/-- Witness for C4 at a concrete proxy-access `Send`. -/
theorem proxy_ops_capability_error_witness :
    sendProxy.access = "proxy" ∧
    sendProxy.repeatCall 3 [] [] respOk = .capabilityError
      "Send.repeat only works with Write or Read access, not Proxy access" ∧
    (sendProxy.getCall (.i 7) respOk).envelopeSent = none :=
  ⟨rfl,
   (proxy_ops_capability_error sendProxy rfl 3 [] [] (.i 7) respOk).1.1,
   (proxy_ops_capability_error sendProxy rfl 3 [] [] (.i 7) respOk).2.2.2.2.2.2⟩

/-- C5: on the write/read dispatch path, a response envelope carrying a
non-null remote exception makes the protocol log the exception and the
traceback and re-raise that very exception object; a null remote exception
makes it return the result unchanged. -/
theorem remote_exception_reraised (s : Send) (rp : Option String)
    (mn fn : String) (h : s.fn_pointers = some (rp, mn, fn)) (ft : String)
    (args : List RValue) (kw : List (String × RValue)) (resp : RemoteResponse) :
    (∀ ex, resp.fn_exception = some ex →
      s.call_fn_with_ssh_access ft args kw resp =
        .transmitted ⟨rp, mn, fn, ft, args, kw⟩
          [.infoRunning s.displayName, .errorExn ft ex,
           .errorTraceback resp.fn_traceback]
          (.error ex)) ∧
    (resp.fn_exception = none →
      s.call_fn_with_ssh_access ft args kw resp =
        .transmitted ⟨rp, mn, fn, ft, args, kw⟩ [.infoRunning s.displayName]
          (.ok resp.res)) := by
  constructor
  · intro ex hex
    unfold Send.call_fn_with_ssh_access
    rw [h, hex]
  · intro hex
    unfold Send.call_fn_with_ssh_access
    rw [h, hex]

/-- Witness for C5: a concrete remote `ValueError` is re-raised as itself
with both log lines, and a concrete success returns the result unchanged. -/
theorem remote_exception_reraised_witness :
    sendWrite.call_fn_with_ssh_access "call" [] [] respExn =
      .transmitted ⟨some "pkg", "mod", "fn", "call", [], []⟩
        [.infoRunning "my_send", .errorExn "call" ⟨"ValueError", "bad input"⟩,
         .errorTraceback (some "Traceback (most recent call last) ...")]
        (.error ⟨"ValueError", "bad input"⟩) ∧
    sendWrite.call_fn_with_ssh_access "call" [] [] respOk =
      .transmitted ⟨some "pkg", "mod", "fn", "call", [], []⟩
        [.infoRunning "my_send"] (.ok (.i 42)) :=
  ⟨(remote_exception_reraised sendWrite (some "pkg") "mod" "fn" rfl "call"
      [] [] respExn).1 ⟨"ValueError", "bad input"⟩ rfl,
   (remote_exception_reraised sendWrite (some "pkg") "mod" "fn" rfl "call"
      [] [] respOk).2 rfl⟩

/-- C6: an `install()` whose content hash is already in the node's
`installed_envs`, called with `force=False`, returns immediately: the store
is unchanged and no package install or setup command runs. -/
theorem install_skips_when_cached (e : Env) (st : ObjStore)
    (h : (st.lookup e.install_hash).isSome = true) :
    e.install false st = (st, [], none) :=
  install_cached_noop e st h

/-- A store already holding `envA`'s install hash. -/
def storeWithA : ObjStore := emptyStore.record envA.install_hash (some "a")

/-- Witness for C6: with `envA`'s hash cached, `install` is a no-op. -/
theorem install_skips_when_cached_witness :
    (storeWithA.lookup envA.install_hash).isSome = true ∧
    envA.install false storeWithA = (storeWithA, [], none) :=
  ⟨by decide, install_skips_when_cached envA storeWithA (by decide)⟩

/-- C1, evaluated at the failing input: `envA` and `envB` are identical
except for their name, yet their install hashes differ — the popped config
still contains the `env_name` field, which carries the name — and installing
`envA` and then `envB` on the same fresh node process performs the install
side effects twice. -/
theorem install_hash_retains_name :
    envA.install_hash ≠ envB.install_hash ∧
    ("env_name", ConfigVal.s "a") ∈ envA.install_hash ∧
    ("env_name", ConfigVal.s "b") ∈ envB.install_hash ∧
    (envA.install false emptyStore).2.1 ≠ [] ∧
    (envB.install false (envA.install false emptyStore).1).2.1 ≠ [] := by
  refine ⟨by decide, by decide, by decide, by decide, by decide⟩

/-- C2 counterexample: for `envFail` (whose second package's installer
fails) on a fresh node process, the failed `install()` leaves the content
hash recorded in `installed_envs` — the store is not unchanged — because the
source records the hash before running any installer. -/
theorem failed_install_records_hash :
    ((envFail.install false emptyStore).2.2).isSome = true ∧
    (envFail.install false emptyStore).1 ≠ emptyStore ∧
    (envFail.install false emptyStore).1.lookup envFail.install_hash =
      some (some "f") := by
  refine ⟨by decide, by decide, by decide⟩

/-- C2 amended: when a package's installer fails during a non-forced,
non-cached `install()`, the remaining installs and all setup commands are
aborted (the performed effects are exactly the installs of the longest
prefix of requirements whose installers succeed, and contain no setup
command), but the content hash was recorded in `installed_envs` before the
installs began, so it remains recorded and a retry skips the install
entirely instead of attempting it again. -/
theorem install_failure_aborts_but_records (e : Env) (st : ObjStore)
    (m : String) (hfail : (e.install false st).2.2 = some m) :
    (e.install false st).2.1 =
      (e.reqs.takeWhile (fun r => !r.resolvePackage.installFails)).map
        (fun r => Effect.installPkg r.resolvePackage) ∧
    (∀ c, Effect.setupCmd c ∉ (e.install false st).2.1) ∧
    (e.install false st).1.lookup e.install_hash = some e.name ∧
    e.install false (e.install false st).1 =
      ((e.install false st).1, [], none) := by
  cases hv : (st.lookup e.install_hash).isSome with
  | true =>
    rw [install_cached_noop e st hv] at hfail
    exact absurd hfail (by simp)
  | false =>
    cases herr : (e.install_reqs_local).2 with
    | none =>
      rw [install_uncached_ok e st hv herr] at hfail
      exact absurd hfail (by simp)
    | some m' =>
      have heq := install_uncached_fail e st m' hv herr
      refine ⟨?_, ?_, ?_, ?_⟩
      · rw [heq]
        exact installReqsGo_effects e.reqs
      · intro c
        rw [heq]
        exact setup_not_in_install_effects e.reqs c
      · rw [heq]
        exact ObjStore.lookup_record st e.install_hash e.name
      · rw [heq]
        exact install_cached_noop e _
          (by rw [ObjStore.lookup_record st e.install_hash e.name]; rfl)

/-- Witness for C2 amended, at `envFail` on a fresh store: the failing
install performs only the first package's install, runs no setup command,
records the hash, and the retry is skipped. -/
theorem install_failure_aborts_but_records_witness :
    (envFail.install false emptyStore).2.1 =
      (envFail.reqs.takeWhile (fun r => !r.resolvePackage.installFails)).map
        (fun r => Effect.installPkg r.resolvePackage) ∧
    (Effect.setupCmd "echo done" ∉ (envFail.install false emptyStore).2.1) ∧
    envFail.install false (envFail.install false emptyStore).1 =
      ((envFail.install false emptyStore).1, [], none) :=
  ⟨(install_failure_aborts_but_records envFail emptyStore
      ("Package install failed: badpkg") (by decide)).1,
   (install_failure_aborts_but_records envFail emptyStore
      ("Package install failed: badpkg") (by decide)).2.1 "echo done",
   (install_failure_aborts_but_records envFail emptyStore
      ("Package install failed: badpkg") (by decide)).2.2.2⟩

end Runhouse
